import Mathlib

/-!
Verification of the OTP lifecycle engine and the auth orchestrator of the
chatapp backend.  Shallow embedding of:

* src/utils/crypto.js               -- time, format and generation helpers
* the OTP service (createOtpSession, verifyOtp, deleteOtpSession,
  getOtpSessionDetails, cleanupExpiredOtpSessions)
* src/modules/auth/authService.js   -- login, resendOtp

Timestamps are epoch milliseconds, modelled as Int (JS Date arithmetic).
The database table otp_sessions is modelled as a list of rows; SELECT with
ORDER BY created_at DESC LIMIT 1 is modelled by taking the row with the
largest created_at.  bcrypt hashing and comparison are abstracted as
explicit function parameters, since only the boolean outcome of the
comparison matters to the control flow under scrutiny.
-/

namespace ChatApp

/-- Purpose discriminator for an OTP session, as in the schema CHECK
constraint: purpose IN ('login', 'registration'). -/
inductive Purpose
  | login
  | registration
  deriving DecidableEq, Repr

/-- One row of the otp_sessions table. -/
structure OtpSession where
  id : Nat
  email : String
  otp_hash : String
  attempt_count : Nat
  blocked_until : Option Int
  expires_at : Int
  purpose : Purpose
  created_at : Int
  updated_at : Int
  deriving DecidableEq, Repr

/-- OTP configuration (appConfig.otp in src/config/app.js). -/
structure OtpConfig where
  expiryMinutes : Nat
  resendCooldownMinutes : Nat
  maxAttempts : Nat
  deriving DecidableEq, Repr

/-- The errors thrown by the OTP service and the resend flow.  The code
throws Error objects with fixed message shapes; we model them as tags,
carrying the numeric payload that is interpolated into the message. -/
inductive OtpError
  | invalidParams
  | invalidFormat
  | notFound
  | expired
  | blocked (secondsRemaining : Int)
  | invalidCode (attemptsRemaining : Int)
  | tooSoon
  deriving DecidableEq, Repr

/-- Model of Number.prototype.toString for a nonnegative integer:
its decimal digit characters, most significant first. -/
def natToDecString (n : Nat) : String :=
  String.mk ((Nat.digits 10 n).reverse.map (fun d => Char.ofNat (48 + d)))

/-- crypto.js generateOtp: crypto.randomInt(1000000000, 9999999999).toString().
The random draw is externalised: r is the integer produced by randomInt,
which lies in [1000000000, 9999999998] (upper bound exclusive). -/
def generateOtp (r : Nat) : String :=
  natToDecString r

/-- crypto.js isValidOtpFormat: a string matching /^\d{10}$/ (the null and
typeof guards are subsumed: an empty string fails the length test). -/
def isValidOtpFormat (otp : String) : Bool :=
  otp.length == 10 && otp.data.all Char.isDigit

/-- crypto.js calculateExpiry: now plus the given number of minutes, in
epoch milliseconds. -/
def calculateExpiry (minutes : Nat) (now : Int) : Int :=
  now + (minutes : Int) * 60000

/-- crypto.js isExpired: now > expiry (expires_at is NOT NULL in the
schema, so the null guard never fires for session rows). -/
def isExpired (expiry : Int) (now : Int) : Bool :=
  decide (now > expiry)

/-- crypto.js getSecondsUntilExpiry: Math.max(0, Math.floor((expiry - now) / 1000)). -/
def getSecondsUntilExpiry (expiry : Int) (now : Int) : Int :=
  max 0 ((expiry - now).fdiv 1000)

/-- crypto.js isBlockedFromResend: false on null, else now < blockedUntil. -/
def isBlockedFromResend (blockedUntil : Option Int) (now : Int) : Bool :=
  match blockedUntil with
  | none => false
  | some t => decide (now < t)

/-- crypto.js getSecondsUntilUnblock: 0 on null, else
Math.max(0, Math.floor((blockedUntil - now) / 1000)). -/
def getSecondsUntilUnblock (blockedUntil : Option Int) (now : Int) : Int :=
  match blockedUntil with
  | none => 0
  | some t => max 0 ((t - now).fdiv 1000)

/-- Does a row belong to the (email, purpose) pair? -/
def matchesPair (e : String) (p : Purpose) (s : OtpSession) : Bool :=
  decide (s.email = e ∧ s.purpose = p)

/-- The row with the largest created_at (ORDER BY created_at DESC LIMIT 1). -/
def mostRecent : List OtpSession → Option OtpSession
  | [] => none
  | s :: rest =>
    match mostRecent rest with
    | none => some s
    | some t => if t.created_at > s.created_at then some t else some s

/-- SELECT * FROM otp_sessions WHERE email AND purpose match,
ORDER BY created_at DESC LIMIT 1. -/
def findSession (db : List OtpSession) (e : String) (p : Purpose) : Option OtpSession :=
  mostRecent (db.filter (matchesPair e p))

/-- deleteOtpSession: DELETE FROM otp_sessions WHERE email = $1 AND purpose = $2
(removes every row of the pair; idempotent, no error when absent). -/
def deleteOtpSession (db : List OtpSession) (e : String) (p : Purpose) : List OtpSession :=
  db.filter (fun s => !(matchesPair e p s))

/-- UPDATE otp_sessions SET ... WHERE id = $n, applying f to every row
whose id matches. -/
def updateById (db : List OtpSession) (i : Nat) (f : OtpSession → OtpSession) :
    List OtpSession :=
  db.map (fun t => if t.id = i then f t else t)

/-- The value returned by createOtpSession: the plaintext OTP (released
here only, for delivery to the email service) and the session view. -/
structure SessionView where
  id : Nat
  email : String
  expiresAt : Int
  expiresInSeconds : Int
  deriving DecidableEq, Repr

/-- Result of createOtpSession together with the database it leaves behind. -/
structure CreateResult where
  otp : String
  view : SessionView
  db : List OtpSession
  deriving DecidableEq, Repr

/-- createOtpSession(email, purpose): validates the arguments, deletes any
existing session for the pair, then inserts a fresh row with
attempt_count 0, no block, and expires_at = now + expiryMinutes.
freshId models gen_random_uuid(); plainOtp the freshly generated code;
hashOtp the bcrypt hash.  Returns none when the argument guard throws. -/
def createOtpSession (cfg : OtpConfig) (now : Int) (db : List OtpSession)
    (email : String) (purpose : Purpose) (freshId : Nat) (plainOtp : String)
    (hashOtp : String → String) : Option CreateResult :=
  if email = "" then none
  else
    let expiry := calculateExpiry cfg.expiryMinutes now
    let sess : OtpSession :=
      { id := freshId
        email := email
        otp_hash := hashOtp plainOtp
        attempt_count := 0
        blocked_until := none
        expires_at := expiry
        purpose := purpose
        created_at := now
        updated_at := now }
    some
      { otp := plainOtp
        view :=
          { id := freshId
            email := email
            expiresAt := expiry
            expiresInSeconds := getSecondsUntilExpiry expiry now }
        db := deleteOtpSession db email purpose ++ [sess] }

/-- verifyOtp(email, plainOtp, purpose): the OTP verification state
transition.  compareOtp abstracts bcrypt.compare.  Returns the outcome
together with the database it leaves behind. -/
def verifyOtp (cfg : OtpConfig) (now : Int) (db : List OtpSession)
    (email : String) (plainOtp : String) (purpose : Purpose)
    (compareOtp : String → String → Bool) :
    Except OtpError Unit × List OtpSession :=
  if email = "" ∨ plainOtp = "" then (.error .invalidParams, db)
  else if !(isValidOtpFormat plainOtp) then (.error .invalidFormat, db)
  else
    match findSession db email purpose with
    | none => (.error .notFound, db)
    | some sess =>
      if isExpired sess.expires_at now then
        (.error .expired, deleteOtpSession db email purpose)
      else if sess.blocked_until.isSome && isBlockedFromResend sess.blocked_until now then
        (.error (.blocked (getSecondsUntilUnblock sess.blocked_until now)), db)
      else if compareOtp plainOtp sess.otp_hash then
        (.ok (), db)
      else
        let newCount := sess.attempt_count + 1
        let db' :=
          if cfg.maxAttempts ≤ newCount then
            updateById db sess.id (fun t =>
              { t with
                attempt_count := newCount
                blocked_until := some (calculateExpiry cfg.resendCooldownMinutes now)
                updated_at := now })
          else
            updateById db sess.id (fun t =>
              { t with attempt_count := newCount, updated_at := now })
        (.error (.invalidCode ((cfg.maxAttempts : Int) - (newCount : Int))), db')

/-- The projection returned by getOtpSessionDetails. -/
structure SessionDetails where
  id : Nat
  email : String
  expiresAt : Int
  expiresInSeconds : Int
  hasExpired : Bool
  attemptCount : Nat
  attemptsRemaining : Int
  isBlocked : Bool
  blockedUntil : Option Int
  blockedUntilSeconds : Int
  deriving DecidableEq, Repr

/-- getOtpSessionDetails(email, purpose): read-only status projection used
by the frontend timers and by resendOtp. -/
def getOtpSessionDetails (cfg : OtpConfig) (now : Int) (db : List OtpSession)
    (email : String) (purpose : Purpose) : Option SessionDetails :=
  match findSession db email purpose with
  | none => none
  | some s =>
    let eis := getSecondsUntilExpiry s.expires_at now
    let ib := isBlockedFromResend s.blocked_until now
    some
      { id := s.id
        email := s.email
        expiresAt := s.expires_at
        expiresInSeconds := eis
        hasExpired := decide (eis = 0)
        attemptCount := s.attempt_count
        attemptsRemaining := max 0 ((cfg.maxAttempts : Int) - (s.attempt_count : Int))
        isBlocked := ib
        blockedUntil := if ib then s.blocked_until else none
        blockedUntilSeconds := getSecondsUntilUnblock s.blocked_until now }

/-- cleanupExpiredOtpSessions: DELETE FROM otp_sessions WHERE
expires_at < CURRENT_TIMESTAMP; returns the surviving rows and the count
of deleted ones. -/
def cleanupExpiredOtpSessions (now : Int) (db : List OtpSession) :
    List OtpSession × Nat :=
  let remaining := db.filter (fun s => !(decide (s.expires_at < now)))
  (remaining, db.length - remaining.length)

/-- The value returned by a successful resendOtp: the fresh plaintext OTP
(handed to sendOtpEmail) and the new session view. -/
structure ResendResult where
  otp : String
  view : SessionView
  deriving DecidableEq, Repr

/-- authService.js resendOtp(email, purpose): reads the current session
status, fails NotFound / Blocked / TooSoon in that order, otherwise
creates a fresh session and dispatches the new code. -/
def resendOtp (cfg : OtpConfig) (now : Int) (db : List OtpSession)
    (email : String) (purpose : Purpose) (freshId : Nat) (plainOtp : String)
    (hashOtp : String → String) :
    Except OtpError ResendResult × List OtpSession :=
  if email = "" then (.error .invalidParams, db)
  else
    match getOtpSessionDetails cfg now db email purpose with
    | none => (.error .notFound, db)
    | some d =>
      if d.isBlocked then
        (.error (.blocked d.blockedUntilSeconds), db)
      else if !d.hasExpired then
        (.error .tooSoon, db)
      else
        match createOtpSession cfg now db email purpose freshId plainOtp hashOtp with
        | none => (.error .invalidParams, db)
        | some r => (.ok { otp := r.otp, view := r.view }, r.db)

/-- A users-table row, as far as login reads it. -/
structure UserRec where
  id : Nat
  email : String
  password_hash : String
  is_active : Bool
  deriving DecidableEq, Repr

/-- authService.js login(email, password), up to the point where it starts
the OTP flow: the credential checks and the exact error messages thrown.
user is the result of getUserWithPassword(email); comparePassword
abstracts bcrypt.compare. -/
def login (email password : String) (user : Option UserRec)
    (comparePassword : String → String → Bool) : Except String UserRec :=
  if email = "" ∨ password = "" then .error "Email and password are required"
  else
    match user with
    | none => .error "Invalid email or password"
    | some u =>
      if !(comparePassword password u.password_hash) then
        .error "Invalid email or password"
      else if !u.is_active then
        .error "This account has been deactivated"
      else
        .ok u

/-! ### Helper lemmas about the embedded operations -/

theorem mostRecent_mem : ∀ {l : List OtpSession} {s : OtpSession},
    mostRecent l = some s → s ∈ l := by
  intro l
  induction l with
  | nil => intro s h; simp [mostRecent] at h
  | cons a rest ih =>
    intro s h
    unfold mostRecent at h
    cases hr : mostRecent rest with
    | none =>
      rw [hr] at h
      simp only [Option.some.injEq] at h
      exact h ▸ List.mem_cons_self a rest
    | some t =>
      rw [hr] at h
      dsimp only at h
      by_cases hc : t.created_at > a.created_at
      · rw [if_pos hc] at h
        simp only [Option.some.injEq] at h
        exact List.mem_cons_of_mem a (h ▸ ih hr)
      · rw [if_neg hc] at h
        simp only [Option.some.injEq] at h
        exact h ▸ List.mem_cons_self a rest

theorem matchesPair_eq_true {e : String} {p : Purpose} {s : OtpSession} :
    matchesPair e p s = true ↔ s.email = e ∧ s.purpose = p := by
  simp [matchesPair]

theorem findSession_mem {db : List OtpSession} {e : String} {p : Purpose}
    {s : OtpSession} (h : findSession db e p = some s) :
    s ∈ db ∧ s.email = e ∧ s.purpose = p := by
  have hm := mostRecent_mem h
  rw [List.mem_filter] at hm
  exact ⟨hm.1, matchesPair_eq_true.mp hm.2⟩

theorem findSession_deleteOtpSession (db : List OtpSession) (e : String)
    (p : Purpose) : findSession (deleteOtpSession db e p) e p = none := by
  unfold findSession deleteOtpSession
  have hnil : ((db.filter fun s => !(matchesPair e p s)).filter (matchesPair e p)) = [] := by
    rw [List.filter_eq_nil_iff]
    intro a ha
    rw [List.mem_filter] at ha
    simp only [Bool.not_eq_true'] at ha
    simp [ha.2]
  rw [hnil]
  rfl

theorem isValidOtpFormat_ne_empty {s : String} (h : isValidOtpFormat s = true) :
    s ≠ "" := by
  intro he
  subst he
  simp [isValidOtpFormat] at h

/-! ### C3 -/

/-- C3: for every OTP session whose expires_at lies in the past, verifyOtp
fails with Expired regardless of code correctness (the comparison function
is universally quantified), deletes every session of the (email, purpose)
pair, and a subsequent status lookup finds no session. -/
theorem verifyOtp_expired_deletes_session
    (cfg : OtpConfig) (now : Int) (db : List OtpSession) (email code : String)
    (purpose : Purpose) (cmp : String → String → Bool) (s : OtpSession)
    (hemail : email ≠ "") (hfmt : isValidOtpFormat code = true)
    (hfind : findSession db email purpose = some s)
    (hexp : isExpired s.expires_at now = true) :
    verifyOtp cfg now db email code purpose cmp =
      (.error .expired, deleteOtpSession db email purpose) ∧
    getOtpSessionDetails cfg now (deleteOtpSession db email purpose) email purpose
      = none := by
  have hne : ¬(email = "" ∨ code = "") := by
    rintro (h | h)
    · exact hemail h
    · exact isValidOtpFormat_ne_empty hfmt h
  constructor
  · unfold verifyOtp
    rw [if_neg hne, hfmt]
    simp only [Bool.not_true, Bool.false_eq_true, if_false, hfind, hexp, if_true]
  · unfold getOtpSessionDetails
    rw [findSession_deleteOtpSession]

/-- Concrete instantiation of C3: an expired login session, queried with a
well-formed code, at a time past its expiry. -/
theorem verifyOtp_expired_deletes_session_witness :
    verifyOtp ⟨15, 5, 3⟩ 2000
        [⟨1, "a@b.com", "h", 0, none, 1000, Purpose.login, 0, 0⟩]
        "a@b.com" "1234567890" Purpose.login (fun _ _ => true) =
      (.error .expired,
        deleteOtpSession [⟨1, "a@b.com", "h", 0, none, 1000, Purpose.login, 0, 0⟩]
          "a@b.com" Purpose.login) ∧
    getOtpSessionDetails ⟨15, 5, 3⟩ 2000
        (deleteOtpSession [⟨1, "a@b.com", "h", 0, none, 1000, Purpose.login, 0, 0⟩]
          "a@b.com" Purpose.login)
        "a@b.com" Purpose.login = none :=
  verifyOtp_expired_deletes_session ⟨15, 5, 3⟩ 2000
    [⟨1, "a@b.com", "h", 0, none, 1000, Purpose.login, 0, 0⟩]
    "a@b.com" "1234567890" Purpose.login (fun _ _ => true)
    ⟨1, "a@b.com", "h", 0, none, 1000, Purpose.login, 0, 0⟩
    (by decide) (by decide) (by decide) (by decide)

/-- Master unfolding of the wrong-code branch of verifyOtp: on an existing,
unexpired, unblocked session, a well-formed code failing the hash
comparison yields the InvalidCode error with max − newCount (not floored)
and the single UPDATE of the found row, which also sets blocked_until
when the new count has reached maxAttempts. -/
theorem verifyOtp_wrong_eq
    (cfg : OtpConfig) (now : Int) (db : List OtpSession) (email code : String)
    (purpose : Purpose) (cmp : String → String → Bool) (s : OtpSession)
    (hemail : email ≠ "") (hfmt : isValidOtpFormat code = true)
    (hfind : findSession db email purpose = some s)
    (hexp : isExpired s.expires_at now = false)
    (hnb : isBlockedFromResend s.blocked_until now = false)
    (hcmp : cmp code s.otp_hash = false) :
    verifyOtp cfg now db email code purpose cmp =
      (.error (.invalidCode ((cfg.maxAttempts : Int) - ((s.attempt_count + 1 : Nat) : Int))),
       if cfg.maxAttempts ≤ s.attempt_count + 1 then
         updateById db s.id (fun t =>
           { t with
             attempt_count := s.attempt_count + 1
             blocked_until := some (calculateExpiry cfg.resendCooldownMinutes now)
             updated_at := now })
       else
         updateById db s.id (fun t =>
           { t with attempt_count := s.attempt_count + 1, updated_at := now })) := by
  have hne : ¬(email = "" ∨ code = "") := by
    rintro (h | h)
    · exact hemail h
    · exact isValidOtpFormat_ne_empty hfmt h
  unfold verifyOtp
  rw [if_neg hne, hfmt]
  simp only [Bool.not_true, Bool.false_eq_true, if_false, hfind]
  rw [hexp, hnb, hcmp]
  simp only [Bool.and_false, Bool.false_eq_true, if_false]

/-- The image of a matching row under an UPDATE ... WHERE id = i is in the
updated table. -/
theorem mem_updateById {db : List OtpSession} {t : OtpSession} (ht : t ∈ db)
    (i : Nat) (f : OtpSession → OtpSession) (hid : t.id = i) :
    f t ∈ updateById db i f := by
  unfold updateById
  have hm := List.mem_map_of_mem (fun u => if u.id = i then f u else u) ht
  simpa [hid] using hm

/-! ### C1 -/

/-- C1: on an active, unexpired, unblocked session, a well-formed wrong
code increments attempt_count by exactly 1 in the persisted row, and the
same single update sets blocked_until to now + cooldown minutes exactly
when the new count has reached maxAttempts (otherwise blocked_until is
untouched). -/
theorem verifyOtp_wrong_code_increments
    (cfg : OtpConfig) (now : Int) (db : List OtpSession) (email code : String)
    (purpose : Purpose) (cmp : String → String → Bool) (s : OtpSession)
    (hemail : email ≠ "") (hfmt : isValidOtpFormat code = true)
    (hfind : findSession db email purpose = some s)
    (hexp : isExpired s.expires_at now = false)
    (hnb : isBlockedFromResend s.blocked_until now = false)
    (hcmp : cmp code s.otp_hash = false) :
    (verifyOtp cfg now db email code purpose cmp).1 =
      .error (.invalidCode ((cfg.maxAttempts : Int) - ((s.attempt_count + 1 : Nat) : Int))) ∧
    ∃ s', s' ∈ (verifyOtp cfg now db email code purpose cmp).2 ∧
      s'.id = s.id ∧ s'.email = s.email ∧ s'.purpose = s.purpose ∧
      s'.attempt_count = s.attempt_count + 1 ∧
      (cfg.maxAttempts ≤ s.attempt_count + 1 →
        s'.blocked_until = some (now + (cfg.resendCooldownMinutes : Int) * 60000)) ∧
      (s.attempt_count + 1 < cfg.maxAttempts → s'.blocked_until = s.blocked_until) := by
  have heq := verifyOtp_wrong_eq cfg now db email code purpose cmp s
    hemail hfmt hfind hexp hnb hcmp
  have hmem := (findSession_mem hfind).1
  rw [heq]
  refine ⟨rfl, ?_⟩
  by_cases hmax : cfg.maxAttempts ≤ s.attempt_count + 1
  · refine ⟨{ s with
        attempt_count := s.attempt_count + 1
        blocked_until := some (calculateExpiry cfg.resendCooldownMinutes now)
        updated_at := now }, ?_, rfl, rfl, rfl, rfl, fun _ => rfl, fun hlt => ?_⟩
    · rw [if_pos hmax]
      exact mem_updateById hmem s.id _ rfl
    · exact absurd hmax (by omega)
  · refine ⟨{ s with attempt_count := s.attempt_count + 1, updated_at := now },
      ?_, rfl, rfl, rfl, rfl, fun h => absurd h hmax, fun _ => rfl⟩
    rw [if_neg hmax]
    exact mem_updateById hmem s.id _ rfl

/-- Concrete instantiation of C1: second wrong attempt on a session with
attempt_count 1 under maxAttempts 3. -/
theorem verifyOtp_wrong_code_increments_witness :
    (verifyOtp ⟨15, 5, 3⟩ 1000 [⟨1, "a@b.com", "h", 1, none, 5000, Purpose.login, 0, 0⟩]
        "a@b.com" "1234567890" Purpose.login (fun _ _ => false)).1 =
      .error (.invalidCode ((3 : Int) - ((1 + 1 : Nat) : Int))) ∧
    ∃ s', s' ∈ (verifyOtp ⟨15, 5, 3⟩ 1000
        [⟨1, "a@b.com", "h", 1, none, 5000, Purpose.login, 0, 0⟩]
        "a@b.com" "1234567890" Purpose.login (fun _ _ => false)).2 ∧
      s'.id = 1 ∧ s'.email = "a@b.com" ∧ s'.purpose = Purpose.login ∧
      s'.attempt_count = 1 + 1 ∧
      (3 ≤ 1 + 1 → s'.blocked_until = some (1000 + (5 : Int) * 60000)) ∧
      (1 + 1 < 3 → s'.blocked_until = none) :=
  verifyOtp_wrong_code_increments ⟨15, 5, 3⟩ 1000
    [⟨1, "a@b.com", "h", 1, none, 5000, Purpose.login, 0, 0⟩]
    "a@b.com" "1234567890" Purpose.login (fun _ _ => false)
    ⟨1, "a@b.com", "h", 1, none, 5000, Purpose.login, 0, 0⟩
    (by decide) (by decide) (by decide) (by decide) (by decide) (by decide)

/-! ### C2 -/

/-- C2 counterexample: a session that is blocked (now < blocked_until) but
also already expired.  The claim predicts a Blocked failure with the row
left unchanged; the code checks expiry first, so it fails Expired and
deletes the row, even though the supplied code is the correct one. -/
theorem verifyOtp_blocked_claim_counterexample :
    ((1500000 : Int) < 2000000) ∧
    (fun c h => decide (c = "1234567890" ∧ h = "h")) "1234567890" "h" = true ∧
    verifyOtp ⟨15, 5, 3⟩ 1500000
        [⟨1, "a@b.com", "h", 2, some 2000000, 1000000, Purpose.login, 0, 0⟩]
        "a@b.com" "1234567890" Purpose.login
        (fun c h => decide (c = "1234567890" ∧ h = "h")) =
      (.error .expired, []) :=
  ⟨by decide, by decide, rfl⟩

/-- C2 (amended): for every UNEXPIRED session with blocked_until set and
now < blocked_until, verifyOtp fails with Blocked carrying the remaining
seconds and leaves the whole table (hence the row, including
attempt_count) unchanged, for every outcome of the hash comparison. -/
theorem verifyOtp_blocked_frame
    (cfg : OtpConfig) (now : Int) (db : List OtpSession) (email code : String)
    (purpose : Purpose) (cmp : String → String → Bool) (s : OtpSession) (b : Int)
    (hemail : email ≠ "") (hfmt : isValidOtpFormat code = true)
    (hfind : findSession db email purpose = some s)
    (hexp : isExpired s.expires_at now = false)
    (hb : s.blocked_until = some b) (hnow : now < b) :
    verifyOtp cfg now db email code purpose cmp =
      (.error (.blocked (getSecondsUntilUnblock s.blocked_until now)), db) := by
  have hne : ¬(email = "" ∨ code = "") := by
    rintro (h | h)
    · exact hemail h
    · exact isValidOtpFormat_ne_empty hfmt h
  unfold verifyOtp
  rw [if_neg hne, hfmt]
  simp only [Bool.not_true, Bool.false_eq_true, if_false, hfind]
  have hbb : isBlockedFromResend (some b) now = true := by
    simp [isBlockedFromResend, hnow]
  rw [hexp, hb]
  simp only [Bool.false_eq_true, if_false, Option.isSome_some, Bool.true_and,
    hbb, if_true]

/-- Concrete instantiation of C2 (amended): blocked, unexpired session,
correct code supplied, row untouched. -/
theorem verifyOtp_blocked_frame_witness :
    verifyOtp ⟨15, 5, 3⟩ 1500000
        [⟨1, "a@b.com", "h", 3, some 2000000, 3000000, Purpose.login, 0, 0⟩]
        "a@b.com" "1234567890" Purpose.login (fun _ _ => true) =
      (.error (.blocked (getSecondsUntilUnblock (some 2000000) 1500000)),
        [⟨1, "a@b.com", "h", 3, some 2000000, 3000000, Purpose.login, 0, 0⟩]) :=
  verifyOtp_blocked_frame ⟨15, 5, 3⟩ 1500000
    [⟨1, "a@b.com", "h", 3, some 2000000, 3000000, Purpose.login, 0, 0⟩]
    "a@b.com" "1234567890" Purpose.login (fun _ _ => true)
    ⟨1, "a@b.com", "h", 3, some 2000000, 3000000, Purpose.login, 0, 0⟩ 2000000
    (by decide) (by decide) (by decide) (by decide) (by decide) (by decide)

/-! ### C5 -/

/-- C5 counterexample: with maxAttempts 3 and a stored attempt_count of 3
(cooldown already lapsed, session unexpired), a wrong code makes the code
report −1 attempts remaining: the reported value is NOT floored at 0. -/
theorem verifyOtp_attempts_remaining_counterexample :
    (verifyOtp ⟨15, 5, 3⟩ 500000
        [⟨1, "a@b.com", "h", 3, some 1000, 900000, Purpose.login, 0, 0⟩]
        "a@b.com" "0000000000" Purpose.login (fun _ _ => false)).1 =
      .error (.invalidCode (-1)) ∧ (-1 : Int) < 0 :=
  ⟨rfl, by decide⟩

/-- C5 (amended): the InvalidCode error reports exactly
maxAttempts − newCount with no flooring, and the reported value is
strictly negative whenever the stored attempt_count was already at least
maxAttempts (a state reachable once a cooldown has lapsed). -/
theorem verifyOtp_attempts_remaining_report
    (cfg : OtpConfig) (now : Int) (db : List OtpSession) (email code : String)
    (purpose : Purpose) (cmp : String → String → Bool) (s : OtpSession)
    (hemail : email ≠ "") (hfmt : isValidOtpFormat code = true)
    (hfind : findSession db email purpose = some s)
    (hexp : isExpired s.expires_at now = false)
    (hnb : isBlockedFromResend s.blocked_until now = false)
    (hcmp : cmp code s.otp_hash = false) :
    (verifyOtp cfg now db email code purpose cmp).1 =
      .error (.invalidCode ((cfg.maxAttempts : Int) - ((s.attempt_count + 1 : Nat) : Int))) ∧
    (cfg.maxAttempts ≤ s.attempt_count →
      (cfg.maxAttempts : Int) - ((s.attempt_count + 1 : Nat) : Int) < 0) := by
  have heq := verifyOtp_wrong_eq cfg now db email code purpose cmp s
    hemail hfmt hfind hexp hnb hcmp
  rw [heq]
  refine ⟨rfl, fun hle => ?_⟩
  push_cast
  omega

/-- Concrete instantiation of C5 (amended): stored attempt_count 3 at
maxAttempts 3 makes the reported value negative. -/
theorem verifyOtp_attempts_remaining_report_witness :
    (verifyOtp ⟨15, 5, 3⟩ 600000
        [⟨1, "a@b.com", "h", 3, some 1000, 900000, Purpose.login, 0, 0⟩]
        "a@b.com" "0000000000" Purpose.login (fun _ _ => false)).1 =
      .error (.invalidCode ((3 : Int) - ((3 + 1 : Nat) : Int))) ∧
    (3 ≤ 3 → (3 : Int) - ((3 + 1 : Nat) : Int) < 0) :=
  verifyOtp_attempts_remaining_report ⟨15, 5, 3⟩ 600000
    [⟨1, "a@b.com", "h", 3, some 1000, 900000, Purpose.login, 0, 0⟩]
    "a@b.com" "0000000000" Purpose.login (fun _ _ => false)
    ⟨1, "a@b.com", "h", 3, some 1000, 900000, Purpose.login, 0, 0⟩
    (by decide) (by decide) (by decide) (by decide) (by decide) (by decide)

/-! ### C6 -/

/-- C6: resendOtp applies its checks in order: NotFound when no session
exists for the pair; else Blocked (with the remaining seconds) when the
status view says blocked; else TooSoon when the current code has not yet
expired; else it replaces the pair's sessions with a fresh one having
attempt_count 0 and hands the fresh plaintext code to the dispatcher. -/
theorem resendOtp_cases
    (cfg : OtpConfig) (now : Int) (db : List OtpSession) (email : String)
    (purpose : Purpose) (freshId : Nat) (plainOtp : String)
    (hashOtp : String → String) (hemail : email ≠ "") :
    (getOtpSessionDetails cfg now db email purpose = none →
      resendOtp cfg now db email purpose freshId plainOtp hashOtp =
        (.error .notFound, db)) ∧
    (∀ d, getOtpSessionDetails cfg now db email purpose = some d →
      d.isBlocked = true →
      resendOtp cfg now db email purpose freshId plainOtp hashOtp =
        (.error (.blocked d.blockedUntilSeconds), db)) ∧
    (∀ d, getOtpSessionDetails cfg now db email purpose = some d →
      d.isBlocked = false → d.hasExpired = false →
      resendOtp cfg now db email purpose freshId plainOtp hashOtp =
        (.error .tooSoon, db)) ∧
    (∀ d, getOtpSessionDetails cfg now db email purpose = some d →
      d.isBlocked = false → d.hasExpired = true →
      resendOtp cfg now db email purpose freshId plainOtp hashOtp =
        (.ok { otp := plainOtp
               view :=
                 { id := freshId
                   email := email
                   expiresAt := now + (cfg.expiryMinutes : Int) * 60000
                   expiresInSeconds :=
                     getSecondsUntilExpiry (now + (cfg.expiryMinutes : Int) * 60000) now } },
         deleteOtpSession db email purpose ++
           [{ id := freshId
              email := email
              otp_hash := hashOtp plainOtp
              attempt_count := 0
              blocked_until := none
              expires_at := now + (cfg.expiryMinutes : Int) * 60000
              purpose := purpose
              created_at := now
              updated_at := now }])) := by
  refine ⟨fun hnone => ?_, fun d hd hbl => ?_, fun d hd hbl hexp => ?_,
    fun d hd hbl hexp => ?_⟩
  · unfold resendOtp
    rw [if_neg hemail, hnone]
  · unfold resendOtp
    rw [if_neg hemail, hd]
    simp only [hbl, if_true]
  · unfold resendOtp
    rw [if_neg hemail, hd]
    simp only [hbl, Bool.false_eq_true, if_false, hexp, Bool.not_false, if_true]
  · unfold resendOtp
    rw [if_neg hemail, hd]
    simp only [hbl, Bool.false_eq_true, if_false, hexp, Bool.not_true, if_true]
    unfold createOtpSession
    rw [if_neg hemail]
    rfl

/-- Concrete instantiation of C6: a resend on an unblocked session whose
code has expired succeeds and installs a fresh session with
attempt_count 0. -/
theorem resendOtp_cases_witness :
    resendOtp ⟨15, 5, 3⟩ 2000000
        [⟨1, "a@b.com", "h", 2, none, 1000000, Purpose.login, 0, 0⟩]
        "a@b.com" Purpose.login 2 "5555555555" (fun c => String.append c "#") =
      (.ok { otp := "5555555555"
             view :=
               { id := 2
                 email := "a@b.com"
                 expiresAt := 2000000 + (15 : Int) * 60000
                 expiresInSeconds :=
                   getSecondsUntilExpiry (2000000 + (15 : Int) * 60000) 2000000 } },
       deleteOtpSession [⟨1, "a@b.com", "h", 2, none, 1000000, Purpose.login, 0, 0⟩]
           "a@b.com" Purpose.login ++
         [{ id := 2
            email := "a@b.com"
            otp_hash := String.append "5555555555" "#"
            attempt_count := 0
            blocked_until := none
            expires_at := 2000000 + (15 : Int) * 60000
            purpose := Purpose.login
            created_at := 2000000
            updated_at := 2000000 }]) :=
  (resendOtp_cases ⟨15, 5, 3⟩ 2000000
      [⟨1, "a@b.com", "h", 2, none, 1000000, Purpose.login, 0, 0⟩]
      "a@b.com" Purpose.login 2 "5555555555" (fun c => String.append c "#")
      (by decide)).2.2.2
    { id := 1
      email := "a@b.com"
      expiresAt := 1000000
      expiresInSeconds := 0
      hasExpired := true
      attemptCount := 2
      attemptsRemaining := 1
      isBlocked := false
      blockedUntil := none
      blockedUntilSeconds := 0 }
    (by decide) rfl rfl

/-! ### C7 -/

/-- C7 counterexample: an inactive account with a matching password does
not produce the generic message; it produces the distinct deactivation
message, so that failure cause is distinguishable. -/
theorem login_inactive_counterexample :
    login "a@b.com" "secret1" (some ⟨1, "a@b.com", "ph", false⟩) (fun _ _ => true) =
      .error "This account has been deactivated" ∧
    ("This account has been deactivated" : String) ≠ "Invalid email or password" :=
  ⟨rfl, by decide⟩

/-- C7 (amended): an absent user record and a password mismatch yield the
identical generic message, but an inactive account (with matching
password) yields the distinct deactivation message. -/
theorem login_error_messages
    (email password : String) (u : UserRec) (cmp : String → String → Bool)
    (hemail : email ≠ "") (hpw : password ≠ "") :
    login email password none cmp = .error "Invalid email or password" ∧
    (cmp password u.password_hash = false →
      login email password (some u) cmp = .error "Invalid email or password") ∧
    (cmp password u.password_hash = true → u.is_active = false →
      login email password (some u) cmp =
        .error "This account has been deactivated") := by
  have hne : ¬(email = "" ∨ password = "") := by
    rintro (h | h)
    · exact hemail h
    · exact hpw h
  refine ⟨?_, fun hcmp => ?_, fun hcmp hact => ?_⟩
  · unfold login
    rw [if_neg hne]
  · unfold login
    rw [if_neg hne]
    simp only [hcmp, Bool.not_false, if_true]
  · unfold login
    rw [if_neg hne]
    simp only [hcmp, Bool.not_true, Bool.false_eq_true, if_false, hact,
      Bool.not_false, if_true]

/-- Concrete instantiation of C7 (amended) at an inactive user record. -/
theorem login_error_messages_witness :
    login "a@b.com" "secret1" none (fun _ _ => true) =
      .error "Invalid email or password" ∧
    ((fun _ _ => true : String → String → Bool) "secret1" "ph" = false →
      login "a@b.com" "secret1" (some ⟨1, "a@b.com", "ph", false⟩) (fun _ _ => true) =
        .error "Invalid email or password") ∧
    ((fun _ _ => true : String → String → Bool) "secret1" "ph" = true →
      (⟨1, "a@b.com", "ph", false⟩ : UserRec).is_active = false →
      login "a@b.com" "secret1" (some ⟨1, "a@b.com", "ph", false⟩) (fun _ _ => true) =
        .error "This account has been deactivated") :=
  login_error_messages "a@b.com" "secret1" ⟨1, "a@b.com", "ph", false⟩
    (fun _ _ => true) (by decide) (by decide)

/-! ### C10 -/

/-- C10: in the final second before expires_at (now at most expires_at but
less than a full second away), the status view already reports
hasExpired = true, yet verifyOtp still accepts the correct code, and
resendOtp permits a resend.  The views disagree because hasExpired is
derived from the floored, clamped expiresInSeconds while verifyOtp uses
the strict now > expires_at test. -/
theorem status_verify_expiry_mismatch
    (cfg : OtpConfig) (now : Int) (db : List OtpSession) (email code : String)
    (purpose : Purpose) (cmp : String → String → Bool) (s : OtpSession)
    (hemail : email ≠ "") (hfmt : isValidOtpFormat code = true)
    (hfind : findSession db email purpose = some s)
    (hw1 : now ≤ s.expires_at) (hw2 : s.expires_at < now + 1000)
    (hnb : s.blocked_until = none)
    (hcmp : cmp code s.otp_hash = true) :
    (∃ d, getOtpSessionDetails cfg now db email purpose = some d ∧
      d.hasExpired = true) ∧
    verifyOtp cfg now db email code purpose cmp = (.ok (), db) ∧
    (∀ freshId plainOtp hashOtp, ∃ r rdb,
      resendOtp cfg now db email purpose freshId plainOtp hashOtp =
        (.ok r, rdb)) := by
  have hne : ¬(email = "" ∨ code = "") := by
    rintro (h | h)
    · exact hemail h
    · exact isValidOtpFormat_ne_empty hfmt h
  have heis : getSecondsUntilExpiry s.expires_at now = 0 := by
    unfold getSecondsUntilExpiry
    rw [Int.fdiv_eq_ediv _ (by norm_num),
      Int.ediv_eq_zero_of_lt (by omega) (by omega)]
    simp
  have hexp : isExpired s.expires_at now = false := by
    unfold isExpired
    simp only [decide_eq_false_iff_not, not_lt]
    exact hw1
  have hdet : getOtpSessionDetails cfg now db email purpose =
      some { id := s.id
             email := s.email
             expiresAt := s.expires_at
             expiresInSeconds := 0
             hasExpired := true
             attemptCount := s.attempt_count
             attemptsRemaining := max 0 ((cfg.maxAttempts : Int) - (s.attempt_count : Int))
             isBlocked := false
             blockedUntil := none
             blockedUntilSeconds := 0 } := by
    unfold getOtpSessionDetails
    rw [hfind]
    simp only [hnb, heis]
    rfl
  refine ⟨⟨_, hdet, rfl⟩, ?_, ?_⟩
  · unfold verifyOtp
    rw [if_neg hne, hfmt]
    simp only [Bool.not_true, Bool.false_eq_true, if_false, hfind]
    rw [hexp, hnb, hcmp]
    simp only [Option.isSome_none, Bool.false_and, Bool.false_eq_true, if_false,
      if_true]
  · intro freshId plainOtp hashOtp
    refine ⟨{ otp := plainOtp
              view :=
                { id := freshId
                  email := email
                  expiresAt := now + (cfg.expiryMinutes : Int) * 60000
                  expiresInSeconds :=
                    getSecondsUntilExpiry (now + (cfg.expiryMinutes : Int) * 60000) now } },
      deleteOtpSession db email purpose ++
        [{ id := freshId
           email := email
           otp_hash := hashOtp plainOtp
           attempt_count := 0
           blocked_until := none
           expires_at := now + (cfg.expiryMinutes : Int) * 60000
           purpose := purpose
           created_at := now
           updated_at := now }], ?_⟩
    unfold resendOtp
    rw [if_neg hemail, hdet]
    simp only [Bool.false_eq_true, if_false, Bool.not_true, if_true]
    unfold createOtpSession
    rw [if_neg hemail]
    rfl

/-- Concrete instantiation of C10: a session half a second from expiry is
reported hasExpired by the status view, yet the correct code verifies and
a resend is permitted. -/
theorem status_verify_expiry_mismatch_witness :
    (∃ d, getOtpSessionDetails ⟨15, 5, 3⟩ 1000000
        [⟨1, "a@b.com", "h", 0, none, 1000500, Purpose.login, 0, 0⟩]
        "a@b.com" Purpose.login = some d ∧ d.hasExpired = true) ∧
    verifyOtp ⟨15, 5, 3⟩ 1000000
        [⟨1, "a@b.com", "h", 0, none, 1000500, Purpose.login, 0, 0⟩]
        "a@b.com" "1234567890" Purpose.login
        (fun c h => decide (c = "1234567890" ∧ h = "h")) =
      (.ok (), [⟨1, "a@b.com", "h", 0, none, 1000500, Purpose.login, 0, 0⟩]) ∧
    (∀ freshId plainOtp hashOtp, ∃ r rdb,
      resendOtp ⟨15, 5, 3⟩ 1000000
          [⟨1, "a@b.com", "h", 0, none, 1000500, Purpose.login, 0, 0⟩]
          "a@b.com" Purpose.login freshId plainOtp hashOtp = (.ok r, rdb)) :=
  status_verify_expiry_mismatch ⟨15, 5, 3⟩ 1000000
    [⟨1, "a@b.com", "h", 0, none, 1000500, Purpose.login, 0, 0⟩]
    "a@b.com" "1234567890" Purpose.login
    (fun c h => decide (c = "1234567890" ∧ h = "h"))
    ⟨1, "a@b.com", "h", 0, none, 1000500, Purpose.login, 0, 0⟩
    (by decide) (by decide) (by decide) (by decide) (by decide) (by decide)
    (by decide)

/-! ### C9 -/

/-- C9: every code produced by generateOtp from a draw in
[1000000000, 9999999998] is a string of exactly 10 decimal digits whose
leading character is not the zero digit, and it passes isValidOtpFormat,
so verifyOtp never rejects an engine-generated code on format grounds. -/
theorem generateOtp_format
    (r : Nat) (h1 : 1000000000 ≤ r) (h2 : r ≤ 9999999998) :
    (generateOtp r).length = 10 ∧
    (∀ c ∈ (generateOtp r).data, c.isDigit = true) ∧
    (generateOtp r).data.head? ≠ some (Char.ofNat 48) ∧
    isValidOtpFormat (generateOtp r) = true := by
  have hr0 : r ≠ 0 := by omega
  have hdlen : (Nat.digits 10 r).length = 10 := by
    have hl := Nat.digits_len 10 r (by norm_num) hr0
    have hlog : Nat.log 10 r = 9 := by
      refine Nat.log_eq_of_pow_le_of_lt_pow ?_ ?_ <;> norm_num <;> omega
    omega
  have hlen : (generateOtp r).length = 10 := by
    simp only [generateOtp, natToDecString, String.length, String.data,
      List.length_map, List.length_reverse]
    exact hdlen
  have hdig : ∀ c ∈ (generateOtp r).data, c.isDigit = true := by
    intro c hc
    simp only [generateOtp, natToDecString, String.data, List.mem_map,
      List.mem_reverse] at hc
    obtain ⟨d, hd, rfl⟩ := hc
    have hd10 : d < 10 := Nat.digits_lt_base (by norm_num) hd
    interval_cases d <;> decide
  have hhead : (generateOtp r).data.head? ≠ some (Char.ofNat 48) := by
    have hne : Nat.digits 10 r ≠ [] := by
      intro hnil
      rw [hnil] at hdlen
      simp at hdlen
    have hlast := Nat.getLast_digit_ne_zero 10 hr0
    have hlast10 : (Nat.digits 10 r).getLast
        (Nat.digits_ne_nil_iff_ne_zero.mpr hr0) < 10 :=
      Nat.digits_lt_base (by norm_num) (List.getLast_mem _)
    simp only [generateOtp, natToDecString, String.data, List.head?_map,
      List.head?_reverse]
    rw [List.getLast?_eq_getLast _ (Nat.digits_ne_nil_iff_ne_zero.mpr hr0)]
    simp only [Option.map_some, ne_eq, Option.some.injEq]
    intro habs
    set d := (Nat.digits 10 r).getLast (Nat.digits_ne_nil_iff_ne_zero.mpr hr0) with hdde
    have : (48 + d) % 1112064 = 48 % 1112064 → d = 0 := by
      intro hmod
      omega
    revert habs hlast
    clear hdde
    interval_cases d <;> decide
  refine ⟨hlen, hdig, hhead, ?_⟩
  unfold isValidOtpFormat
  rw [hlen]
  simp only [beq_self_eq_true, Bool.true_and, List.all_eq_true]
  intro c hc
  exact hdig c hc

/-- Concrete instantiation of C9 at the draw 1234567890. -/
theorem generateOtp_format_witness :
    (generateOtp 1234567890).length = 10 ∧
    (∀ c ∈ (generateOtp 1234567890).data, c.isDigit = true) ∧
    (generateOtp 1234567890).data.head? ≠ some (Char.ofNat 48) ∧
    isValidOtpFormat (generateOtp 1234567890) = true :=
  generateOtp_format 1234567890 (by decide) (by decide)

/-! ### Engine steps and the single-session invariant (C4, C8) -/

/-- At most one otp_sessions row per (email, purpose) pair. -/
def SingleSessionInv (db : List OtpSession) : Prop :=
  List.Pairwise (fun a b => ¬(a.email = b.email ∧ a.purpose = b.purpose)) db

/-- One operation of the OTP engine (or the orchestrating resend flow)
acting on the otp_sessions table at time now.  The freshId premises model
the gen_random_uuid() primary key: a newly inserted row never reuses an
existing id. -/
inductive EngineStep (cfg : OtpConfig) (now : Int) :
    List OtpSession → List OtpSession → Prop
  | create (db : List OtpSession) (email : String) (purpose : Purpose)
      (freshId : Nat) (plainOtp : String) (hashOtp : String → String)
      (r : CreateResult)
      (hfresh : freshId ∉ db.map OtpSession.id)
      (hc : createOtpSession cfg now db email purpose freshId plainOtp hashOtp = some r) :
      EngineStep cfg now db r.db
  | verify (db : List OtpSession) (email plainOtp : String) (purpose : Purpose)
      (cmp : String → String → Bool) :
      EngineStep cfg now db (verifyOtp cfg now db email plainOtp purpose cmp).2
  | delete (db : List OtpSession) (email : String) (purpose : Purpose) :
      EngineStep cfg now db (deleteOtpSession db email purpose)
  | status (db : List OtpSession) (email : String) (purpose : Purpose) :
      EngineStep cfg now db db
  | resend (db : List OtpSession) (email : String) (purpose : Purpose)
      (freshId : Nat) (plainOtp : String) (hashOtp : String → String)
      (hfresh : freshId ∉ db.map OtpSession.id) :
      EngineStep cfg now db (resendOtp cfg now db email purpose freshId plainOtp hashOtp).2
  | cleanup (db : List OtpSession) :
      EngineStep cfg now db (cleanupExpiredOtpSessions now db).1

theorem filter_deleteOtpSession_nil (db : List OtpSession) (e : String)
    (p : Purpose) :
    (deleteOtpSession db e p).filter (matchesPair e p) = [] := by
  unfold deleteOtpSession
  rw [List.filter_eq_nil_iff]
  intro a ha
  rw [List.mem_filter] at ha
  simp only [Bool.not_eq_true'] at ha
  simp [ha.2]

theorem SingleSessionInv_filter {db : List OtpSession}
    (hinv : SingleSessionInv db) (p : OtpSession → Bool) :
    SingleSessionInv (db.filter p) :=
  List.Pairwise.filter p hinv

theorem SingleSessionInv_updateById {db : List OtpSession}
    (hinv : SingleSessionInv db) (i : Nat) (f : OtpSession → OtpSession)
    (hf : ∀ t, (f t).email = t.email ∧ (f t).purpose = t.purpose) :
    SingleSessionInv (updateById db i f) := by
  unfold updateById SingleSessionInv
  refine List.Pairwise.map _ ?_ hinv
  intro a b hab habs
  apply hab
  have hga : ∀ t : OtpSession,
      (if t.id = i then f t else t).email = t.email ∧
      (if t.id = i then f t else t).purpose = t.purpose := by
    intro t
    by_cases ht : t.id = i
    · simp [ht, hf t]
    · simp [ht]
  rw [(hga a).1, (hga a).2, (hga b).1, (hga b).2] at habs
  exact habs

theorem SingleSessionInv_createOtpSession {cfg : OtpConfig} {now : Int}
    {db : List OtpSession} {email : String} {purpose : Purpose} {freshId : Nat}
    {plainOtp : String} {hashOtp : String → String} {r : CreateResult}
    (hc : createOtpSession cfg now db email purpose freshId plainOtp hashOtp = some r)
    (hinv : SingleSessionInv db) : SingleSessionInv r.db := by
  unfold createOtpSession at hc
  split at hc
  · exact absurd hc (by simp)
  · simp only [Option.some.injEq] at hc
    subst hc
    unfold SingleSessionInv
    rw [List.pairwise_append]
    refine ⟨SingleSessionInv_filter hinv _, List.pairwise_singleton _ _, ?_⟩
    intro a ha b hb
    rw [List.mem_singleton] at hb
    subst hb
    unfold deleteOtpSession at ha
    rw [List.mem_filter] at ha
    have hnm := ha.2
    simp only [Bool.not_eq_true'] at hnm
    rw [matchesPair] at hnm
    simp only [decide_eq_false_iff_not] at hnm
    exact hnm

theorem SingleSessionInv_verifyOtp (cfg : OtpConfig) (now : Int)
    (db : List OtpSession) (email code : String) (purpose : Purpose)
    (cmp : String → String → Bool) (hinv : SingleSessionInv db) :
    SingleSessionInv (verifyOtp cfg now db email code purpose cmp).2 := by
  unfold verifyOtp
  split
  · exact hinv
  split
  · exact hinv
  split
  · exact hinv
  · split
    · exact SingleSessionInv_filter hinv _
    split
    · exact hinv
    split
    · exact hinv
    · dsimp only
      split
      · exact SingleSessionInv_updateById hinv _ _ (fun t => ⟨rfl, rfl⟩)
      · exact SingleSessionInv_updateById hinv _ _ (fun t => ⟨rfl, rfl⟩)

theorem SingleSessionInv_resendOtp (cfg : OtpConfig) (now : Int)
    (db : List OtpSession) (email : String) (purpose : Purpose) (freshId : Nat)
    (plainOtp : String) (hashOtp : String → String)
    (hinv : SingleSessionInv db) :
    SingleSessionInv (resendOtp cfg now db email purpose freshId plainOtp hashOtp).2 := by
  unfold resendOtp
  split
  · exact hinv
  split
  · exact hinv
  · split
    · exact hinv
    split
    · exact hinv
    · split
      · exact hinv
      next r heq => exact SingleSessionInv_createOtpSession heq hinv

/-! ### C4 -/

/-- C4: createOtpSession leaves exactly one session for the targeted
(email, purpose) pair regardless of what was stored before (it deletes any
prior one before inserting), and every engine operation preserves the
at-most-one-session-per-pair invariant. -/
theorem otp_single_session_invariant (cfg : OtpConfig) (now : Int) :
    (∀ db email purpose freshId plainOtp hashOtp r,
      createOtpSession cfg now db email purpose freshId plainOtp hashOtp = some r →
      (r.db.filter (matchesPair email purpose)).length = 1) ∧
    (∀ db db', EngineStep cfg now db db' →
      SingleSessionInv db → SingleSessionInv db') := by
  constructor
  · intro db email purpose freshId plainOtp hashOtp r hc
    unfold createOtpSession at hc
    split at hc
    · exact absurd hc (by simp)
    · simp only [Option.some.injEq] at hc
      subst hc
      dsimp only
      rw [List.filter_append, filter_deleteOtpSession_nil]
      simp [matchesPair]
  · intro db db' hstep hinv
    cases hstep with
    | create email purpose freshId plainOtp hashOtp r hfresh hc =>
      exact SingleSessionInv_createOtpSession hc hinv
    | verify email plainOtp purpose cmp =>
      exact SingleSessionInv_verifyOtp cfg now db email plainOtp purpose cmp hinv
    | delete email purpose => exact SingleSessionInv_filter hinv _
    | status email purpose => exact hinv
    | resend email purpose freshId plainOtp hashOtp hfresh =>
      exact SingleSessionInv_resendOtp cfg now db email purpose freshId
        plainOtp hashOtp hinv
    | cleanup => exact SingleSessionInv_filter hinv _

/-- Concrete instantiation of C4: a create over a table already holding a
session for the pair leaves exactly one, and a verify step preserves the
invariant. -/
theorem otp_single_session_invariant_witness :
    ((deleteOtpSession [⟨1, "a@b.com", "h", 1, none, 9000, Purpose.login, 0, 0⟩]
        "a@b.com" Purpose.login ++
      ([⟨7, "a@b.com", "H2", 0, none, 60000 + (15 : Int) * 60000, Purpose.login,
        60000, 60000⟩] : List OtpSession)).filter
        (matchesPair "a@b.com" Purpose.login)).length = 1 ∧
    SingleSessionInv (verifyOtp ⟨15, 5, 3⟩ 60000
      [⟨1, "a@b.com", "h", 1, none, 9000, Purpose.login, 0, 0⟩]
      "a@b.com" "1234567890" Purpose.login (fun _ _ => false)).2 := by
  constructor
  · exact (otp_single_session_invariant ⟨15, 5, 3⟩ 60000).1
      [⟨1, "a@b.com", "h", 1, none, 9000, Purpose.login, 0, 0⟩]
      "a@b.com" Purpose.login 7 "1234509876" (fun _ => "H2")
      ({ otp := "1234509876"
         view :=
           { id := 7
             email := "a@b.com"
             expiresAt := 60000 + (15 : Int) * 60000
             expiresInSeconds :=
               getSecondsUntilExpiry (60000 + (15 : Int) * 60000) 60000 }
         db := deleteOtpSession
             [⟨1, "a@b.com", "h", 1, none, 9000, Purpose.login, 0, 0⟩]
             "a@b.com" Purpose.login ++
           [⟨7, "a@b.com", "H2", 0, none, 60000 + (15 : Int) * 60000,
             Purpose.login, 60000, 60000⟩] } : CreateResult)
      (by decide)
  · exact (otp_single_session_invariant ⟨15, 5, 3⟩ 60000).2
      [⟨1, "a@b.com", "h", 1, none, 9000, Purpose.login, 0, 0⟩] _
      (EngineStep.verify [⟨1, "a@b.com", "h", 1, none, 9000, Purpose.login, 0, 0⟩]
        "a@b.com" "1234567890" Purpose.login (fun _ _ => false))
      (by unfold SingleSessionInv; decide)

/-! ### Row-level monotonicity (C8) -/

theorem eq_of_mem_nodup {db : List OtpSession}
    (hnd : (db.map OtpSession.id).Nodup) {s t : OtpSession}
    (hs : s ∈ db) (ht : t ∈ db) (hid : t.id = s.id) : t = s :=
  List.inj_on_of_nodup_map hnd ht hs hid

theorem row_unchanged {db : List OtpSession}
    (hnd : (db.map OtpSession.id).Nodup) {s s' : OtpSession}
    (hs : s ∈ db) (hs' : s' ∈ db) (hid : s'.id = s.id) :
    s.attempt_count ≤ s'.attempt_count ∧
    (s.blocked_until.isSome = true → s'.blocked_until.isSome = true) := by
  obtain rfl := eq_of_mem_nodup hnd hs hs' hid
  exact ⟨le_refl _, fun h => h⟩

theorem createOtpSession_row_monotone {cfg : OtpConfig} {now : Int}
    {db : List OtpSession} {email : String} {purpose : Purpose} {freshId : Nat}
    {plainOtp : String} {hashOtp : String → String} {r : CreateResult}
    (hc : createOtpSession cfg now db email purpose freshId plainOtp hashOtp = some r)
    (hfresh : freshId ∉ db.map OtpSession.id)
    (hnd : (db.map OtpSession.id).Nodup) {s s' : OtpSession}
    (hs : s ∈ db) (hs' : s' ∈ r.db) (hid : s'.id = s.id) :
    s.attempt_count ≤ s'.attempt_count ∧
    (s.blocked_until.isSome = true → s'.blocked_until.isSome = true) := by
  unfold createOtpSession at hc
  split at hc
  · exact absurd hc (by simp)
  · simp only [Option.some.injEq] at hc
    subst hc
    dsimp only at hs'
    rcases List.mem_append.mp hs' with h | h
    · exact row_unchanged hnd hs (List.mem_of_mem_filter h) hid
    · rw [List.mem_singleton] at h
      subst h
      exfalso
      apply hfresh
      rw [List.mem_map]
      exact ⟨s, hs, by simpa using hid.symm⟩

theorem verifyOtp_row_monotone (cfg : OtpConfig) (now : Int)
    (db : List OtpSession) (email code : String) (purpose : Purpose)
    (cmp : String → String → Bool)
    (hnd : (db.map OtpSession.id).Nodup) {s s' : OtpSession} (hs : s ∈ db)
    (hs' : s' ∈ (verifyOtp cfg now db email code purpose cmp).2)
    (hid : s'.id = s.id) :
    s.attempt_count ≤ s'.attempt_count ∧
    (s.blocked_until.isSome = true → s'.blocked_until.isSome = true) := by
  unfold verifyOtp at hs'
  split at hs'
  · exact row_unchanged hnd hs hs' hid
  split at hs'
  · exact row_unchanged hnd hs hs' hid
  split at hs'
  · exact row_unchanged hnd hs hs' hid
  next sess hfind =>
    split at hs'
    · unfold deleteOtpSession at hs'
      exact row_unchanged hnd hs (List.mem_of_mem_filter hs') hid
    split at hs'
    · exact row_unchanged hnd hs hs' hid
    split at hs'
    · exact row_unchanged hnd hs hs' hid
    · dsimp only at hs'
      have hsess : sess ∈ db := (findSession_mem hfind).1
      split at hs'
      · unfold updateById at hs'
        rw [List.mem_map] at hs'
        obtain ⟨t, ht, hgt⟩ := hs'
        by_cases htid : t.id = sess.id
        · rw [if_pos htid] at hgt
          subst hgt
          simp only at hid
          obtain rfl := eq_of_mem_nodup hnd hs ht hid
          have hst : sess = t := eq_of_mem_nodup hnd ht hsess htid.symm
          subst hst
          exact ⟨Nat.le_succ _, fun _ => rfl⟩
        · rw [if_neg htid] at hgt
          subst hgt
          exact row_unchanged hnd hs ht hid
      · unfold updateById at hs'
        rw [List.mem_map] at hs'
        obtain ⟨t, ht, hgt⟩ := hs'
        by_cases htid : t.id = sess.id
        · rw [if_pos htid] at hgt
          subst hgt
          simp only at hid
          obtain rfl := eq_of_mem_nodup hnd hs ht hid
          have hst : sess = t := eq_of_mem_nodup hnd ht hsess htid.symm
          subst hst
          exact ⟨Nat.le_succ _, fun h => h⟩
        · rw [if_neg htid] at hgt
          subst hgt
          exact row_unchanged hnd hs ht hid

theorem resendOtp_row_monotone (cfg : OtpConfig) (now : Int)
    (db : List OtpSession) (email : String) (purpose : Purpose) (freshId : Nat)
    (plainOtp : String) (hashOtp : String → String)
    (hfresh : freshId ∉ db.map OtpSession.id)
    (hnd : (db.map OtpSession.id).Nodup) {s s' : OtpSession} (hs : s ∈ db)
    (hs' : s' ∈ (resendOtp cfg now db email purpose freshId plainOtp hashOtp).2)
    (hid : s'.id = s.id) :
    s.attempt_count ≤ s'.attempt_count ∧
    (s.blocked_until.isSome = true → s'.blocked_until.isSome = true) := by
  unfold resendOtp at hs'
  split at hs'
  · exact row_unchanged hnd hs hs' hid
  split at hs'
  · exact row_unchanged hnd hs hs' hid
  · split at hs'
    · exact row_unchanged hnd hs hs' hid
    split at hs'
    · exact row_unchanged hnd hs hs' hid
    · split at hs'
      · exact row_unchanged hnd hs hs' hid
      next r heq =>
        exact createOtpSession_row_monotone heq hfresh hnd hs hs' hid

/-! ### C8 -/

/-- C8: no engine operation acting on an existing session row (identified
by its primary key) ever decreases attempt_count or clears a set
blocked_until; and once attempt_count has reached maxAttempts, the next
wrong-code verifyOtp after the cooldown lapses installs a fresh
blocked_until a full cooldown in the future. -/
theorem otp_session_counters_monotone (cfg : OtpConfig) (now : Int) :
    (∀ db db', EngineStep cfg now db db' → (db.map OtpSession.id).Nodup →
      ∀ s ∈ db, ∀ s' ∈ db', s'.id = s.id →
        s.attempt_count ≤ s'.attempt_count ∧
        (s.blocked_until.isSome = true → s'.blocked_until.isSome = true)) ∧
    (∀ db (email code : String) (purpose : Purpose)
        (cmp : String → String → Bool) (s : OtpSession) (b : Int),
      email ≠ "" → isValidOtpFormat code = true →
      findSession db email purpose = some s →
      isExpired s.expires_at now = false →
      s.blocked_until = some b → ¬(now < b) →
      cfg.maxAttempts ≤ s.attempt_count →
      cmp code s.otp_hash = false →
      ∃ s', s' ∈ (verifyOtp cfg now db email code purpose cmp).2 ∧
        s'.id = s.id ∧ s'.attempt_count = s.attempt_count + 1 ∧
        s'.blocked_until = some (now + (cfg.resendCooldownMinutes : Int) * 60000)) := by
  constructor
  · intro db db' hstep hnd s hs s' hs' hid
    cases hstep with
    | create email purpose freshId plainOtp hashOtp r hfresh hc =>
      exact createOtpSession_row_monotone hc hfresh hnd hs hs' hid
    | verify email code purpose cmp =>
      exact verifyOtp_row_monotone cfg now db email code purpose cmp hnd hs hs' hid
    | delete email purpose =>
      unfold deleteOtpSession at hs'
      exact row_unchanged hnd hs (List.mem_of_mem_filter hs') hid
    | status email purpose => exact row_unchanged hnd hs hs' hid
    | resend email purpose freshId plainOtp hashOtp hfresh =>
      exact resendOtp_row_monotone cfg now db email purpose freshId plainOtp
        hashOtp hfresh hnd hs hs' hid
    | cleanup =>
      unfold cleanupExpiredOtpSessions at hs'
      exact row_unchanged hnd hs (List.mem_of_mem_filter hs') hid
  · intro db email code purpose cmp s b hemail hfmt hfind hexp hb hnlt hge hcmp
    have hnb : isBlockedFromResend s.blocked_until now = false := by
      rw [hb]
      unfold isBlockedFromResend
      simp [hnlt]
    rw [verifyOtp_wrong_eq cfg now db email code purpose cmp s hemail hfmt
      hfind hexp hnb hcmp]
    rw [if_pos (by omega : cfg.maxAttempts ≤ s.attempt_count + 1)]
    refine ⟨{ s with
        attempt_count := s.attempt_count + 1
        blocked_until := some (calculateExpiry cfg.resendCooldownMinutes now)
        updated_at := now }, ?_, rfl, rfl, rfl⟩
    exact mem_updateById (findSession_mem hfind).1 s.id _ rfl

/-- Concrete instantiation of C8: a delete step never decreases counters of
surviving rows, and a post-cooldown wrong attempt on a maxed-out session
re-blocks for a full cooldown. -/
theorem otp_session_counters_monotone_witness :
    (∀ s ∈ [(⟨1, "a@b.com", "h", 1, none, 9000, Purpose.login, 0, 0⟩ : OtpSession)],
      ∀ s' ∈ deleteOtpSession
        [(⟨1, "a@b.com", "h", 1, none, 9000, Purpose.login, 0, 0⟩ : OtpSession)]
        "other@b.com" Purpose.login, s'.id = s.id →
        s.attempt_count ≤ s'.attempt_count ∧
        (s.blocked_until.isSome = true → s'.blocked_until.isSome = true)) ∧
    (∃ s', s' ∈ (verifyOtp ⟨15, 5, 3⟩ 500000
        [⟨1, "a@b.com", "h", 3, some 1000, 900000, Purpose.login, 0, 0⟩]
        "a@b.com" "1111111111" Purpose.login (fun _ _ => false)).2 ∧
      s'.id = 1 ∧ s'.attempt_count = 3 + 1 ∧
      s'.blocked_until = some (500000 + (5 : Int) * 60000)) :=
  ⟨(otp_session_counters_monotone ⟨15, 5, 3⟩ 500000).1
      [⟨1, "a@b.com", "h", 1, none, 9000, Purpose.login, 0, 0⟩] _
      (EngineStep.delete [⟨1, "a@b.com", "h", 1, none, 9000, Purpose.login, 0, 0⟩]
        "other@b.com" Purpose.login)
      (by decide),
   (otp_session_counters_monotone ⟨15, 5, 3⟩ 500000).2
      [⟨1, "a@b.com", "h", 3, some 1000, 900000, Purpose.login, 0, 0⟩]
      "a@b.com" "1111111111" Purpose.login (fun _ _ => false)
      ⟨1, "a@b.com", "h", 3, some 1000, 900000, Purpose.login, 0, 0⟩ 1000
      (by decide) (by decide) (by decide) (by decide) (by decide) (by decide)
      (by decide) (by decide)⟩

end ChatApp
